import Mathlib

/-!
Verification of the ani-scrape release tracker.

Shallow embedding of the code in `src/`:
* `src/app/core/models.py` — the `Media` and `Release` tables;
* `src/app/core/database.py` — `DatabaseClient` operations (`add_release`,
  `get_unnotified_releases`, `mark_as_notified`, `delete_media`);
* `src/app/services/tracker.py` — `ReleaseTracker.check_for_updates`;
* `src/app/services/discord_notifier.py` — `DiscordNotifier.notify_new_releases`;
* `src/app/services/scheduler.py` — the deadline computation of
  `run_scrape_job_with_cooldown`;
* `src/app/services/anilist_client.py` — the HTTP 429 retry loop of
  `AniListClient._query`.

Numbers (episode/chapter counts, installment numbers) are Python floats in the
source; they are modelled as `Rat`.  Timestamps (`datetime.utcnow()`) are
modelled as abstract `Nat` clock values passed in by the caller.  The catalog
fetch chain (AniList / MangaUpdates) and the Discord webhook post are external
collaborators and are modelled as black-box functions, as the spec directs.
-/

/-- `MediaType` from models.py: the two enumerated kinds. -/
inductive MediaType where
  | ANIME
  | MANGA
deriving DecidableEq, Repr

/-- A row of the `media` table.

Fields `id`, `anilist_id`, `media_type`, `title_romaji`, `title_english`,
`last_updated_at` are declared in models.py.  The `created_at` column is not
read by any modelled operation and is omitted.

Modelled from the spec: the columns `user_progress` ("an optional
user-declared progress marker") and `last_checked_count` ("an optional
last-observed total count") of the spec's TrackedItem.  models.py as shipped
does not declare these two columns, but tracker.py reads
`media.user_progress` (line 36) and `media.last_checked_count` (lines
106/114), and sync.py passes `user_progress=` to `add_or_update_media`; only
readers and writers of the columns are under `src/`, so the columns
themselves are taken from the spec's data model. -/
structure MediaRec where
  id : Nat
  anilistId : Nat
  mediaType : MediaType
  titleRomaji : String
  titleEnglish : Option String
  userProgress : Option Rat
  lastCheckedCount : Option Rat
  lastUpdatedAt : Nat
deriving DecidableEq, Repr

/-- A row of the `releases` table (models.py lines 39-65): identity `id`
(autoincrement primary key), owning `media_id`, a float installment `number`,
`released_at`, the `notified` flag with its optional `notified_at`
timestamp, and `created_at`. -/
structure Release where
  id : Nat
  mediaId : Nat
  number : Rat
  releasedAt : Nat
  notified : Bool
  notifiedAt : Option Nat
  createdAt : Nat
deriving DecidableEq, Repr

/-- The persisted state owned by the Release Ledger: the `media` and
`releases` tables, plus the autoincrement counter backing `Release.id`. -/
structure DBState where
  media : List MediaRec
  releases : List Release
  nextReleaseId : Nat
deriving DecidableEq, Repr

/-- SQLAlchemy `Result.scalar_one_or_none()`: `none` for an empty result set,
the row for a singleton, and a raised `MultipleResultsFound` otherwise. -/
def scalarOneOrNone {α : Type} : List α → Except String (Option α)
  | [] => .ok none
  | [x] => .ok (some x)
  | _ => .error "MultipleResultsFound"

/-- The rows of the `releases` table matching the WHERE clause of
`DatabaseClient.add_release` (database.py lines 128-130):
`Release.media_id == media_id AND Release.number == number`. -/
def releaseKeyFilter (l : List Release) (mediaId : Nat) (number : Rat) : List Release :=
  l.filter (fun r => decide (r.mediaId = mediaId ∧ r.number = number))

/-- `DatabaseClient.add_release` (database.py lines 123-148): select the
existing row for `(media_id, number)`; if present return it with
`wasCreated = false` and leave the table untouched, otherwise insert a fresh
row (with `released_at = released_at or datetime.utcnow()`, `notified`
defaulting to false) and return it with `wasCreated = true`.  `now` stands
for `datetime.utcnow()` at the call. -/
def addRelease (s : DBState) (mediaId : Nat) (number : Rat) (releasedAt : Option Nat)
    (now : Nat) : Except String (Release × Bool × DBState) :=
  match scalarOneOrNone (releaseKeyFilter s.releases mediaId number) with
  | .error e => .error e
  | .ok (some existing) => .ok (existing, false, s)
  | .ok none =>
    let rel : Release :=
      { id := s.nextReleaseId
        mediaId := mediaId
        number := number
        releasedAt := releasedAt.getD now
        notified := false
        notifiedAt := none
        createdAt := now }
    .ok (rel, true, { s with releases := s.releases ++ [rel],
                             nextReleaseId := s.nextReleaseId + 1 })

/-- Insertion sort descending on `created_at`, modelling the
`ORDER BY Release.created_at DESC` of `get_unnotified_releases`. -/
def insertByCreatedDesc (r : Release) : List Release → List Release
  | [] => [r]
  | x :: xs => if r.createdAt ≤ x.createdAt then x :: insertByCreatedDesc r xs
               else r :: x :: xs

/-- Sort a list of releases newest-created-first. -/
def sortByCreatedDesc (l : List Release) : List Release :=
  l.foldr insertByCreatedDesc []

/-- `DatabaseClient.get_unnotified_releases` (database.py lines 156-165):
all rows with `notified` false, ordered newest-created-first. -/
def getUnnotifiedReleases (s : DBState) : List Release :=
  sortByCreatedDesc (s.releases.filter (fun r => r.notified == false))

/-- `DatabaseClient.mark_as_notified` (database.py lines 167-180): an
unconditional `UPDATE releases SET notified = true, notified_at = utcnow()
WHERE id = release_id`.  There is no guard on the current value of
`notified`: the row matching the id gets both columns written on every
call. -/
def markAsNotified (s : DBState) (releaseId : Nat) (now : Nat) : DBState :=
  { s with releases := s.releases.map (fun r =>
      if r.id = releaseId then { r with notified := true, notifiedAt := some now } else r) }

/-- `DatabaseClient.delete_media` (database.py lines 109-121): select the
media row by `anilist_id`; when found, delete it, which cascades to its
release rows (`cascade="all, delete-orphan"` / `ondelete="CASCADE"` in
models.py). -/
def deleteMedia (s : DBState) (anilistId : Nat) : DBState × Bool :=
  match scalarOneOrNone (s.media.filter (fun m => decide (m.anilistId = anilistId))) with
  | .error _ => (s, false)
  | .ok none => (s, false)
  | .ok (some m) =>
    ({ s with media := s.media.filter (fun x => decide (¬ x.id = m.id)),
              releases := s.releases.filter (fun r => decide (¬ r.mediaId = m.id)) }, true)

/-- Modelled from the spec: `updateObservedCount(itemId, newCount)` — "sets
last-observed total count and update timestamp; does not touch release
records".  The method `DatabaseClient.update_media_count` invoked at
tracker.py line 148 is not defined anywhere under `src/` (database.py
declares no such method); only its caller is in the sources, so the
operation is modelled from the spec's words. -/
def updateMediaCount (s : DBState) (mediaId : Nat) (newCount : Rat) (now : Nat) : DBState :=
  { s with media := s.media.map (fun m =>
      if m.id = mediaId then { m with lastCheckedCount := some newCount, lastUpdatedAt := now }
      else m) }

/-- The ledger operations that touch the `releases` table, for stating
invariants across the `DatabaseClient` API surface.
(`add_or_update_media` reads and writes only `Media` rows — database.py
lines 61-94 — and is omitted.) -/
inductive DbOp where
  | add (mediaId : Nat) (number : Rat) (releasedAt : Option Nat) (now : Nat)
  | mark (releaseId : Nat) (now : Nat)
  | delete (anilistId : Nat)

/-- Apply one ledger operation to the state.  A raised exception
(`MultipleResultsFound`) aborts before any mutation, leaving the state
unchanged. -/
def applyOp (s : DBState) : DbOp → DBState
  | .add mediaId number releasedAt now =>
    match addRelease s mediaId number releasedAt now with
    | .ok (_, _, s2) => s2
    | .error _ => s
  | .mark releaseId now => markAsNotified s releaseId now
  | .delete anilistId => (deleteMedia s anilistId).1

/-- Python `int()` applied to a float: truncation toward zero. -/
def pyInt (q : Rat) : Int :=
  if 0 ≤ q then q.floor else -((-q).floor)

/-- Python `range(a, b)` as the list of integers `a, a+1, ..., b-1`. -/
def pyRange (a b : Int) : List Int :=
  (List.range (b - a).toNat).map (fun i => a + i)

/-- One announcement dict appended to `notifications` by
`check_for_updates` (tracker.py lines 129-137). -/
structure Notification where
  number : Rat
  anilistId : Nat
  titleRomaji : String
  titleEnglish : Option String
  mediaType : MediaType
deriving DecidableEq, Repr

/-- The per-item body of the loop in `ReleaseTracker.check_for_updates`
(tracker.py lines 34-143), as the pair (announcements queued, count updates
queued) it contributes.  `fetched` is the `total_count` the catalog fetch
chain produced for this item, `none` on failure.

* lines 36-40: skip when `not media.user_progress or media.user_progress == 0`;
* lines 98-102: skip when `not total_count` (Python falsiness: `None` or zero);
* lines 106-111: first observation (`last_checked_count is None`) — queue the
  count as initial state, queue no announcement;
* lines 116-139: when `total_count > last_known`, queue one announcement for
  each `number in range(int(last_known) + 1, int(total_count) + 1)` and queue
  the count update; otherwise nothing. -/
def processMedia (m : MediaRec) (fetched : Option Rat) :
    List Notification × List (Nat × Rat) :=
  if m.userProgress = none ∨ m.userProgress = some 0 then ([], [])
  else
    match fetched with
    | none => ([], [])
    | some totalCount =>
      if totalCount = 0 then ([], [])
      else
        match m.lastCheckedCount with
        | none => ([], [(m.id, totalCount)])
        | some lastKnown =>
          if lastKnown < totalCount then
            ((pyRange (pyInt lastKnown + 1) (pyInt totalCount + 1)).map (fun (n : Int) =>
              { number := (n : Rat)
                anilistId := m.anilistId
                titleRomaji := m.titleRomaji
                titleEnglish := m.titleEnglish
                mediaType := m.mediaType }),
             [(m.id, totalCount)])
          else ([], [])

/-- The whole loop of `check_for_updates`: fold `processMedia` over the
item list, accumulating the `notifications` and `updates_to_make` lists in
order. -/
def runDetection (fetch : MediaRec → Option Rat) (l : List MediaRec) :
    List Notification × List (Nat × Rat) :=
  l.foldl (fun acc m =>
    let r := processMedia m (fetch m)
    (acc.1 ++ r.1, acc.2 ++ r.2)) ([], [])

/-- Insertion sort ascending on `title_romaji`, modelling the
`ORDER BY Media.title_romaji` of `get_all_tracked_media`
(database.py line 105). -/
def insertByTitle (m : MediaRec) : List MediaRec → List MediaRec
  | [] => [m]
  | x :: xs => if compare x.titleRomaji m.titleRomaji == Ordering.lt
               then x :: insertByTitle m xs
               else m :: x :: xs

/-- `DatabaseClient.get_all_tracked_media` with no kind filter
(database.py lines 96-107). -/
def getAllTrackedMedia (s : DBState) : List MediaRec :=
  s.media.foldr insertByTitle []

/-- Apply the queued `updates_to_make` (tracker.py lines 146-152), each as a
call of the (spec-modelled) `updateMediaCount`. -/
def applyUpdates (now : Nat) (s : DBState) (ups : List (Nat × Rat)) : DBState :=
  ups.foldl (fun st u => updateMediaCount st u.1 u.2 now) s

/-- The Discord webhook configuration used by the cycle
(config.py `DiscordConfig.webhook_url`). -/
structure CycleConfig where
  webhookUrl : String
deriving DecidableEq, Repr

/-- One step of the dispatch trace of `notify_new_releases`: either a batch
handed to `requests.post` together with the response status it returned
(`none` for a raised exception), or a `time.sleep`. -/
inductive DispatchEvent where
  | send (batch : List Notification) (result : Option Nat)
  | sleep (seconds : Nat)
deriving DecidableEq, Repr

/-- Whether `_send_batch` logged the batch as failed (discord_notifier.py
lines 64-79): a raised exception, or a response status outside
`(200, 204)`. -/
def sendFailed : Option Nat → Bool
  | none => true
  | some code => !(code == 200 || code == 204)

/-- `batch_size = 10` (discord_notifier.py line 29). -/
def batchSize : Nat := 10

/-- The batch loop of `notify_new_releases` (discord_notifier.py lines
30-36): `for i in range(0, len(releases), batch_size)` send
`releases[i : i + batch_size]`, and `time.sleep(1)` afterwards exactly when
`i + batch_size < len(releases)` — that is, when a further batch remains.
`sink` is the black-box delivery outcome of `requests.post` per batch; the
loop ignores it and continues regardless (`_send_batch` swallows both error
statuses and exceptions). -/
def dispatchChunksAux (sink : List Notification → Option Nat) :
    Nat → List Notification → List DispatchEvent
  | _, [] => []
  | 0, _ :: _ => []
  | fuel + 1, x :: xs =>
    let batch := (x :: xs).take batchSize
    let rest := (x :: xs).drop batchSize
    DispatchEvent.send batch (sink batch) ::
      (if rest.isEmpty then [] else DispatchEvent.sleep 1 :: dispatchChunksAux sink fuel rest)

/-- The batch loop, entered with fuel equal to the list length; each
iteration consumes a non-empty slice, so the fuel never runs out. -/
def dispatchChunks (sink : List Notification → Option Nat)
    (releases : List Notification) : List DispatchEvent :=
  dispatchChunksAux sink releases.length releases

/-- Fuelled helper for `chunkBatches`, mirroring `dispatchChunksAux`. -/
def chunkBatchesAux : Nat → List Notification → List (List Notification)
  | _, [] => []
  | 0, _ :: _ => []
  | fuel + 1, x :: xs =>
    (x :: xs).take batchSize :: chunkBatchesAux fuel ((x :: xs).drop batchSize)

/-- The partition of the announcement list into consecutive batches of at
most `batchSize`, for stating properties of the dispatch trace. -/
def chunkBatches (releases : List Notification) : List (List Notification) :=
  chunkBatchesAux releases.length releases

/-- `DiscordNotifier.notify_new_releases` (discord_notifier.py lines 16-36):
return immediately when the webhook URL is unset (falsy string) or the list
is empty; otherwise run the batch loop. -/
def notifyNewReleases (webhookUrl : String) (sink : List Notification → Option Nat)
    (releases : List Notification) : List DispatchEvent :=
  if webhookUrl = "" then []
  else if releases.isEmpty then []
  else dispatchChunks sink releases

/-- Number of `sleep` events in a dispatch trace. -/
def countSleeps (l : List DispatchEvent) : Nat :=
  l.countP (fun e => match e with | .sleep _ => true | _ => false)

/-- The installment numbers of a `send` event's batch (empty for `sleep`). -/
def eventBatchNumbers : DispatchEvent → List Rat
  | .send batch _ => batch.map (fun n => n.number)
  | .sleep _ => []

/-- Whether an event is a batch send that failed. -/
def eventFailed : DispatchEvent → Bool
  | .send _ result => sendFailed result
  | .sleep _ => false

/-- The result of one run of `check_for_updates`: the database afterwards,
the `notifications` list the loop accumulated, and the dispatch trace of
the final `notify_new_releases` call. -/
structure CycleResult where
  db : DBState
  notifications : List Notification
  events : List DispatchEvent
deriving Repr

/-- `ReleaseTracker.check_for_updates` (tracker.py lines 19-166):
read all tracked media (returning at once when there are none), run the
detection loop, apply the queued count updates, then — only when there are
notifications — hand them to `notify_new_releases`.  `fetch` is the
black-box catalog fetch chain per item, `sink` the black-box webhook
outcome per batch, `now` the cycle's `datetime.utcnow()`. -/
def checkForUpdates (cfg : CycleConfig) (now : Nat) (s : DBState)
    (fetch : MediaRec → Option Rat) (sink : List Notification → Option Nat) : CycleResult :=
  let mediaList := getAllTrackedMedia s
  if mediaList.isEmpty then { db := s, notifications := [], events := [] }
  else
    let detected := runDetection fetch mediaList
    let s2 := applyUpdates now s detected.2
    let events := if detected.1.isEmpty then []
                  else notifyNewReleases cfg.webhookUrl sink detected.1
    { db := s2, notifications := detected.1, events := events }

/-- The `SchedulerConfig` pydantic model (config.py lines 20-34): its
declared fields are exactly `enabled`, `interval_hours` and `timezone`. -/
structure SchedulerConfig where
  enabled : Bool
  intervalHours : Nat
  timezone : String
deriving DecidableEq, Repr

/-- A value read off a `SchedulerConfig` field. -/
inductive AttrValue where
  | natV (n : Nat)
  | boolV (b : Bool)
  | strV (s : String)
deriving DecidableEq, Repr

/-- Pydantic attribute access on `SchedulerConfig`: the three fields
declared in config.py resolve; any other attribute name raises
`AttributeError`. -/
def SchedulerConfig.getAttr (c : SchedulerConfig) (name : String) : Except String AttrValue :=
  if name = "enabled" then .ok (.boolV c.enabled)
  else if name = "interval_hours" then .ok (.natV c.intervalHours)
  else if name = "timezone" then .ok (.strV c.timezone)
  else .error ("AttributeError: " ++ name)

/-- The deadline computation of `run_scrape_job_with_cooldown`
(scheduler.py line 96):
`timeout_seconds = (config.scheduler.interval_minutes * 60) - 30`.
It reads the attribute `interval_minutes` off the scheduler config; the
read happens before the scrape task is created (line 97), so an
`AttributeError` here ends the job before any cycle work or cancellation
can occur. -/
def computeTimeoutSeconds (c : SchedulerConfig) : Except String Int :=
  match c.getAttr "interval_minutes" with
  | .error e => .error e
  | .ok (.natV n) => .ok ((n : Int) * 60 - 30)
  | .ok _ => .error "TypeError"

/-- The response handling of `AniListClient._query` (anilist_client.py
lines 24-43) against the successive HTTP statuses the server answers with:
on 429 the client sleeps 10 seconds and calls itself again (consuming the
next status); on any other status it stops.  The result pairs the number
of retries performed with whether the final status was 200 (a non-200,
non-429 status yields the empty dict); `none` means the status list was
exhausted while the client was still retrying. -/
def queryRun : List Nat → Option (Nat × Bool)
  | [] => none
  | status :: rest =>
    if status == 429 then (queryRun rest).map (fun p => (p.1 + 1, p.2))
    else some (0, status == 200)

/- Concrete fixtures used by counterexamples and witnesses. -/

/-- A tracked anime with logged user progress and a last-observed count of 5. -/
def demoMedia : MediaRec :=
  { id := 1, anilistId := 11, mediaType := .ANIME, titleRomaji := "a"
    titleEnglish := none, userProgress := some 3, lastCheckedCount := some 5
    lastUpdatedAt := 0 }

/-- A database holding exactly `demoMedia` and no release records. -/
def demoState : DBState := { media := [demoMedia], releases := [], nextReleaseId := 1 }

/-- A tracked item under first observation: no last-observed count yet. -/
def demoMediaNew : MediaRec := { demoMedia with lastCheckedCount := none }

/-- A database holding exactly `demoMediaNew` and no release records. -/
def demoStateNew : DBState := { media := [demoMediaNew], releases := [], nextReleaseId := 1 }

/-- A configured webhook URL (truthy string). -/
def demoCfg : CycleConfig := { webhookUrl := "https://example.invalid/webhook" }

/-- A delivery sink whose every post returns HTTP 500 (a failed batch). -/
def failSink : List Notification → Option Nat := fun _ => some 500

/-- A delivery sink whose every post returns HTTP 204 (success). -/
def okSink : List Notification → Option Nat := fun _ => some 204

/-- A cycle on `demoState` fetching a fresh count of 8 with a failing sink. -/
def cycleFail : CycleResult := checkForUpdates demoCfg 1000 demoState (fun _ => some 8) failSink

/-- The next cycle after `cycleFail`, again fetching 8, again failing. -/
def cycleAfterFail : CycleResult :=
  checkForUpdates demoCfg 2000 cycleFail.db (fun _ => some 8) failSink

/-- A cycle on `demoState` fetching a fresh count of 4 (below the stored 5). -/
def cycleRegress : CycleResult := checkForUpdates demoCfg 1000 demoState (fun _ => some 4) okSink

/-- A cycle on `demoStateNew` (first observation) fetching a count of 8. -/
def cycleBaseline : CycleResult :=
  checkForUpdates demoCfg 1000 demoStateNew (fun _ => some 8) okSink

/-- An already-notified release record with its notification timestamp 100. -/
def notifiedRel : Release :=
  { id := 1, mediaId := 1, number := 5, releasedAt := 50, notified := true
    notifiedAt := some 100, createdAt := 50 }

/-- A database holding exactly `notifiedRel`. -/
def notifiedState : DBState := { media := [], releases := [notifiedRel], nextReleaseId := 2 }

/-- The empty database. -/
def emptyState : DBState := { media := [], releases := [], nextReleaseId := 1 }

/-- A single demo announcement. -/
def demoNotif : Notification :=
  { number := 6, anilistId := 11, titleRomaji := "a", titleEnglish := none
    mediaType := .ANIME }

/-- A cycle on `demoState` fetching a fresh count of 8 with a succeeding sink. -/
def cycleUp : CycleResult := checkForUpdates demoCfg 1000 demoState (fun _ => some 8) okSink

/-- Number of batch-send events in a dispatch trace. -/
def countSends (l : List DispatchEvent) : Nat :=
  l.countP (fun e => match e with | .send _ _ => true | _ => false)

/- Helper lemmas. -/

theorem processMedia_unusable (m : MediaRec) :
    processMedia m (some 0) = ([], []) ∧ processMedia m none = ([], []) := by
  by_cases h : m.userProgress = none ∨ m.userProgress = some 0 <;> simp [processMedia, h]

theorem runDetection_const_empty (fetch : MediaRec → Option Rat)
    (h0 : ∀ m, processMedia m (fetch m) = ([], [])) :
    ∀ (l : List MediaRec) (acc : List Notification × List (Nat × Rat)),
      l.foldl (fun acc m =>
        let r := processMedia m (fetch m)
        (acc.1 ++ r.1, acc.2 ++ r.2)) acc = acc := by
  intro l
  induction l with
  | nil => intro acc; rfl
  | cons m t ih => intro acc; simp [h0 m, ih]

theorem runDetection_zero (l : List MediaRec) :
    runDetection (fun _ => some 0) l = ([], []) :=
  runDetection_const_empty _ (fun m => (processMedia_unusable m).1) l ([], [])

theorem applyUpdates_releases (now : Nat) (ups : List (Nat × Rat)) :
    ∀ s : DBState, (applyUpdates now s ups).releases = s.releases := by
  induction ups with
  | nil => intro s; rfl
  | cons u t ih =>
    intro s
    have h1 : applyUpdates now s (u :: t)
        = applyUpdates now (updateMediaCount s u.1 u.2 now) t := rfl
    rw [h1, ih]
    rfl

theorem checkForUpdates_releases (cfg : CycleConfig) (now : Nat) (s : DBState)
    (fetch : MediaRec → Option Rat) (sink : List Notification → Option Nat) :
    (checkForUpdates cfg now s fetch sink).db.releases = s.releases := by
  unfold checkForUpdates
  by_cases h : (getAllTrackedMedia s).isEmpty
  · simp [h]
  · simp [h, applyUpdates_releases]

theorem queryRun_replicate (k : Nat) :
    queryRun (List.replicate k 429 ++ [200]) = some (k, true) := by
  induction k with
  | zero => rfl
  | succ n ih => simp [List.replicate_succ, queryRun, ih]

/- Claim theorems. -/

/-- Claim C8 (code bug): the deadline computation at scheduler.py line 96
reads `config.scheduler.interval_minutes`, but `SchedulerConfig` (config.py
lines 20-34) declares only `enabled`, `interval_hours` and `timezone`; for
every scheduler configuration the attribute access raises `AttributeError`,
so no deadline of interval-minus-30-seconds is ever computed and the cycle
is never bounded or cancelled as the claim describes. -/
theorem c8_deadline_reads_undefined_attribute (c : SchedulerConfig) :
    computeTimeoutSeconds c = .error "AttributeError: interval_minutes" := by
  simp [computeTimeoutSeconds, SchedulerConfig.getAttr]

/-- Claim C9, counterexample: there is no fixed bound on the number of
retries `AniListClient._query` performs under HTTP 429 responses — for any
candidate bound, a long enough run of 429s makes the client retry more
often, so the call-site retry is not "bounded ... at most a fixed number of
retries before giving up". -/
theorem c9_counterexample :
    ¬ ∃ N : Nat, ∀ (statuses : List Nat) (result : Nat × Bool),
        queryRun statuses = some result → result.1 ≤ N := by
  rintro ⟨N, h⟩
  have := h (List.replicate (N + 1) 429 ++ [200]) (N + 1, true) (queryRun_replicate (N + 1))
  omega

/-- Claim C9, amended: on each HTTP 429 the client sleeps 10 seconds and
unconditionally retries; the number of retries equals the number of
consecutive 429 responses, with no cap — the backoff-and-retry is
unbounded, giving up only when a non-429 response arrives. -/
theorem c9_amended_unbounded_retry (k : Nat) :
    queryRun (List.replicate k 429 ++ [200]) = some (k, true) :=
  queryRun_replicate k

/-- Claim C10: a fetched total count of zero falls into the same
`if not total_count` skip as an unavailable count (tracker.py lines
98-102): the item contributes no announcement and no queued state update,
and a whole cycle in which every fetch returns zero leaves the database
unchanged with nothing announced — an item whose source reports zero
installments never establishes a baseline. -/
theorem c10_zero_count_skipped_like_unavailable :
    (∀ m : MediaRec, processMedia m (some 0) = processMedia m none
        ∧ processMedia m (some 0) = ([], []))
    ∧ (∀ (cfg : CycleConfig) (now : Nat) (s : DBState)
        (sink : List Notification → Option Nat),
        (checkForUpdates cfg now s (fun _ => some 0) sink).db = s
        ∧ (checkForUpdates cfg now s (fun _ => some 0) sink).notifications = []) := by
  constructor
  · intro m
    exact ⟨(processMedia_unusable m).1.trans (processMedia_unusable m).2.symm,
           (processMedia_unusable m).1⟩
  · intro cfg now s sink
    unfold checkForUpdates
    by_cases h : (getAllTrackedMedia s).isEmpty
    · simp [h]
    · have hz := runDetection_zero (getAllTrackedMedia s)
      simp [h, hz, applyUpdates]

/-- Claim C2: `add_release` called twice with the same (item, number) pair
on a table with no such row inserts exactly one row: the first call returns
the fresh record with `wasCreated = true`, the second returns that same
record with `wasCreated = false` and leaves the table untouched, and exactly
one stored row matches the pair afterwards. -/
theorem c2_add_release_idempotent (s : DBState) (mediaId : Nat) (number : Rat)
    (releasedAt : Option Nat) (t1 t2 : Nat)
    (habsent : releaseKeyFilter s.releases mediaId number = []) :
    ∃ (r1 : Release) (s1 : DBState),
      addRelease s mediaId number releasedAt t1 = .ok (r1, true, s1)
      ∧ addRelease s1 mediaId number releasedAt t2 = .ok (r1, false, s1)
      ∧ (releaseKeyFilter s1.releases mediaId number).length = 1 := by
  set r1 : Release := { id := s.nextReleaseId
                        mediaId := mediaId
                        number := number
                        releasedAt := releasedAt.getD t1
                        notified := false
                        notifiedAt := none
                        createdAt := t1 } with hr1
  set s1 : DBState := { s with releases := s.releases ++ [r1]
                               nextReleaseId := s.nextReleaseId + 1 } with hs1
  have hfil : releaseKeyFilter s1.releases mediaId number = [r1] := by
    rw [hs1]
    unfold releaseKeyFilter at habsent ⊢
    rw [List.filter_append, habsent]
    simp [hr1]
  refine ⟨r1, s1, ?_, ?_, ?_⟩
  · unfold addRelease
    rw [habsent]
    rfl
  · unfold addRelease
    rw [hfil]
    rfl
  · rw [hfil]
    rfl

/-- Claim C2, witness: the double insertion of number 6 for item 1 into the
empty database. -/
theorem c2_witness :
    releaseKeyFilter emptyState.releases 1 6 = []
    ∧ ∃ (r1 : Release) (s1 : DBState),
        addRelease emptyState 1 6 none 10 = .ok (r1, true, s1)
        ∧ addRelease s1 1 6 none 20 = .ok (r1, false, s1)
        ∧ (releaseKeyFilter s1.releases 1 6).length = 1 :=
  ⟨by decide, c2_add_release_idempotent emptyState 1 6 none 10 20 (by decide)⟩

theorem addRelease_ok_shape (s : DBState) (mediaId : Nat) (number : Rat)
    (releasedAt : Option Nat) (now : Nat) (r : Release) (b : Bool) (s2 : DBState)
    (h : addRelease s mediaId number releasedAt now = .ok (r, b, s2)) :
    s2 = s ∨ (s2.releases = s.releases ++ [r] ∧ r.id = s.nextReleaseId) := by
  unfold addRelease at h
  rcases hs : scalarOneOrNone (releaseKeyFilter s.releases mediaId number) with e | o
  · rw [hs] at h
    exact absurd h (by simp)
  · rw [hs] at h
    cases o with
    | none =>
      simp only [Except.ok.injEq, Prod.mk.injEq] at h
      obtain ⟨hr, -, hs2⟩ := h
      right
      rw [← hs2, ← hr]
      exact ⟨rfl, rfl⟩
    | some existing =>
      simp only [Except.ok.injEq, Prod.mk.injEq] at h
      obtain ⟨-, -, hs2⟩ := h
      left
      exact hs2.symm

theorem deleteMedia_releases_subset (s : DBState) (anilistId : Nat) :
    ∀ q ∈ (deleteMedia s anilistId).1.releases, q ∈ s.releases := by
  unfold deleteMedia
  rcases hs : scalarOneOrNone (s.media.filter (fun m => decide (m.anilistId = anilistId)))
      with e | o
  · rw [hs]
    intro q hq
    exact hq
  · rw [hs]
    cases o with
    | none =>
      intro q hq
      exact hq
    | some m =>
      intro q hq
      exact List.mem_of_mem_filter hq

/-- Claim C3, counterexample: `mark_as_notified` on an already-notified
record is not a no-op — the record's notified timestamp, previously 100, is
overwritten with the current time 200, so the timestamp is not set exactly
once and the record does not stay unchanged. -/
theorem c3_counterexample :
    notifiedState.releases.map (fun r => r.notified) = [true]
    ∧ notifiedState.releases.map (fun r => r.notifiedAt) = [some 100]
    ∧ (markAsNotified notifiedState 1 200).releases.map (fun r => r.notifiedAt) = [some 200]
    ∧ ¬ markAsNotified notifiedState 1 200 = notifiedState := by decide

/-- Claim C3, amended: under every ledger operation touching the releases
table (`add_release`, `mark_as_notified`, `delete_media`), a record whose
notified flag is true keeps it true — the flag never reverts to false; but
`mark_as_notified` on an already-notified record is not a no-op: every call
(re)writes the notified timestamp of the matching record to the current
time, so the timestamp is set on every call rather than exactly once.
(The hypotheses state the primary-key invariants of the autoincrement id
column: ids are unique and below the next id to be assigned.) -/
theorem c3_amended_notified_never_reverts (s : DBState) (op : DbOp) (r : Release)
    (hu : ∀ x ∈ s.releases, ∀ y ∈ s.releases, x.id = y.id → x = y)
    (hnext : ∀ q ∈ s.releases, q.id < s.nextReleaseId)
    (hr : r ∈ s.releases) (htrue : r.notified = true) :
    (∀ q ∈ (applyOp s op).releases, q.id = r.id → q.notified = true)
    ∧ (∀ (s2 : DBState) (i t : Nat), ∀ q ∈ (markAsNotified s2 i t).releases,
        q.id = i → q.notifiedAt = some t) := by
  constructor
  · intro q hq hid
    cases op with
    | mark releaseId now =>
      simp only [applyOp, markAsNotified] at hq
      rcases List.mem_map.mp hq with ⟨x, hx, hfx⟩
      by_cases hxid : x.id = releaseId
      · rw [if_pos hxid] at hfx
        rw [← hfx]
      · rw [if_neg hxid] at hfx
        rw [← hfx] at hid ⊢
        have : x = r := hu x hx r hr hid
        rw [this, htrue]
    | add mediaId number releasedAt now =>
      simp only [applyOp] at hq
      rcases hcall : addRelease s mediaId number releasedAt now with e | trip
      · rw [hcall] at hq
        simp only at hq
        have : q = r := hu q hq r hr hid
        rw [this, htrue]
      · obtain ⟨r2, b2, s2⟩ := trip
        rw [hcall] at hq
        simp only at hq
        rcases addRelease_ok_shape s mediaId number releasedAt now r2 b2 s2 hcall
            with hsame | ⟨happ, hid2⟩
        · rw [hsame] at hq
          have : q = r := hu q hq r hr hid
          rw [this, htrue]
        · rw [happ] at hq
          rcases List.mem_append.mp hq with hin | hnew
          · have : q = r := hu q hin r hr hid
            rw [this, htrue]
          · have hq2 : q = r2 := by simpa using hnew
            have h1 : r.id < s.nextReleaseId := hnext r hr
            rw [hq2, hid2] at hid
            omega
    | delete anilistId =>
      simp only [applyOp] at hq
      have : q ∈ s.releases := deleteMedia_releases_subset s anilistId q hq
      have hqr : q = r := hu q this r hr hid
      rw [hqr, htrue]
  · intro s2 i t q hq hid
    simp only [markAsNotified] at hq
    rcases List.mem_map.mp hq with ⟨x, hx, hfx⟩
    by_cases hxid : x.id = i
    · rw [if_pos hxid] at hfx
      rw [← hfx]
    · rw [if_neg hxid] at hfx
      rw [← hfx] at hid
      exact absurd hid hxid

/-- Claim C3, witness: the amended theorem applied to the database holding
one already-notified record and a repeated `mark_as_notified` call on it. -/
theorem c3_witness :
    ((∀ x ∈ notifiedState.releases, ∀ y ∈ notifiedState.releases, x.id = y.id → x = y)
      ∧ (∀ q ∈ notifiedState.releases, q.id < notifiedState.nextReleaseId)
      ∧ notifiedRel ∈ notifiedState.releases
      ∧ notifiedRel.notified = true)
    ∧ ((∀ q ∈ (applyOp notifiedState (.mark 1 200)).releases,
          q.id = notifiedRel.id → q.notified = true)
        ∧ (∀ (s2 : DBState) (i t : Nat), ∀ q ∈ (markAsNotified s2 i t).releases,
            q.id = i → q.notifiedAt = some t)) :=
  ⟨⟨by decide, by decide, by decide, by decide⟩,
   c3_amended_notified_never_reverts notifiedState (.mark 1 200) notifiedRel
     (by decide) (by decide) (by decide) (by decide)⟩

/-- Claim C1, counterexample: an item with a prior last-known count of 5 and
a fresh fetch of 8 makes the check cycle queue the three announcements
6, 7, 8 — but the cycle creates no release records at all
(`check_for_updates` never calls `add_release`), so the claimed records
6, 7 and 8 do not exist and the un-notified query stays empty. -/
theorem c1_counterexample :
    demoMedia.lastCheckedCount = some 5
    ∧ cycleUp.notifications.map (fun n => n.number) = [6, 7, 8]
    ∧ cycleUp.db.releases = []
    ∧ getUnnotifiedReleases cycleUp.db = [] := by decide

/-- Claim C1, amended: for an item that passes the user-progress gate and
has a prior last-known count, a fresh count exceeding it makes the cycle
queue one announcement per integer in the open-closed range
`(int(lastKnown), int(freshCount)]` and queue the item's count update — but
the cycle creates no release records: the releases table is unchanged by
every check cycle. -/
theorem c1_amended_announcements_without_records (m : MediaRec)
    (p lastKnown totalCount : Rat)
    (hup : m.userProgress = some p) (hp : ¬ p = 0)
    (hlast : m.lastCheckedCount = some lastKnown)
    (htc : ¬ totalCount = 0) (hgt : lastKnown < totalCount) :
    (processMedia m (some totalCount)).1.map (fun n => n.number)
        = (pyRange (pyInt lastKnown + 1) (pyInt totalCount + 1)).map (fun (n : Int) => (n : Rat))
    ∧ (processMedia m (some totalCount)).2 = [(m.id, totalCount)]
    ∧ (∀ (cfg : CycleConfig) (now : Nat) (s : DBState)
        (fetch : MediaRec → Option Rat) (sink : List Notification → Option Nat),
        (checkForUpdates cfg now s fetch sink).db.releases = s.releases) := by
  refine ⟨?_, ?_, fun cfg now s fetch sink => checkForUpdates_releases cfg now s fetch sink⟩
  · have hpair : processMedia m (some totalCount)
        = ((pyRange (pyInt lastKnown + 1) (pyInt totalCount + 1)).map (fun (n : Int) =>
            { number := (n : Rat)
              anilistId := m.anilistId
              titleRomaji := m.titleRomaji
              titleEnglish := m.titleEnglish
              mediaType := m.mediaType }),
           [(m.id, totalCount)]) := by
      simp [processMedia, hup, hp, hlast, htc, hgt]
    rw [hpair, List.map_map]
    rfl
  · simp [processMedia, hup, hp, hlast, htc, hgt]

/-- Claim C1, amended, witness: the amended theorem at `demoMedia`
(progress 3, last-known 5) with a fresh count of 8. -/
theorem c1_amended_witness :
    (demoMedia.userProgress = some 3 ∧ ¬ (3 : Rat) = 0
      ∧ demoMedia.lastCheckedCount = some 5 ∧ ¬ (8 : Rat) = 0 ∧ (5 : Rat) < 8)
    ∧ ((processMedia demoMedia (some 8)).1.map (fun n => n.number)
          = (pyRange (pyInt 5 + 1) (pyInt 8 + 1)).map (fun (n : Int) => (n : Rat))
        ∧ (processMedia demoMedia (some 8)).2 = [(demoMedia.id, 8)]
        ∧ (∀ (cfg : CycleConfig) (now : Nat) (s : DBState)
            (fetch : MediaRec → Option Rat) (sink : List Notification → Option Nat),
            (checkForUpdates cfg now s fetch sink).db.releases = s.releases)) :=
  ⟨⟨by decide, by decide, by decide, by decide, by decide⟩,
   c1_amended_announcements_without_records demoMedia 3 5 8
     (by decide) (by decide) (by decide) (by decide) (by decide)⟩

/-- Claim C5, counterexample: an item with stored count 5 whose fresh fetch
returns the usable count 4 is not skipped for lack of a count, yet the
cycle leaves its stored observed-count at 5 — the fresh count is not stored
when it does not exceed the last-known value, contradicting "regardless of
which detection branch is taken". -/
theorem c5_counterexample :
    demoMedia.userProgress = some 3
    ∧ demoMedia.lastCheckedCount = some 5
    ∧ ¬ (4 : Rat) = 0
    ∧ cycleRegress.notifications = []
    ∧ cycleRegress.db.media.map (fun m => m.lastCheckedCount) = [some 5]
    ∧ ¬ cycleRegress.db.media.map (fun m => m.lastCheckedCount) = [some 4] := by decide

/-- Claim C5, amended: for an item with prior state, the cycle queues a
stored-count update only when the fresh count strictly exceeds the
last-known value (and on first observation); when the fresh count is less
than or equal to the last-known value the item contributes nothing and its
stored count is left untouched.  Applying a queued update does set the
stored observed-count to the fresh count. -/
theorem c5_amended_update_only_on_increase (m : MediaRec)
    (p lastKnown totalCount : Rat)
    (hup : m.userProgress = some p) (hp : ¬ p = 0)
    (hlast : m.lastCheckedCount = some lastKnown) (htc : ¬ totalCount = 0) :
    (totalCount ≤ lastKnown → processMedia m (some totalCount) = ([], []))
    ∧ (lastKnown < totalCount → (processMedia m (some totalCount)).2 = [(m.id, totalCount)])
    ∧ (∀ (s : DBState) (mediaId : Nat) (c : Rat) (now : Nat),
        ∀ x ∈ (updateMediaCount s mediaId c now).media,
          x.id = mediaId → x.lastCheckedCount = some c) := by
  refine ⟨?_, ?_, ?_⟩
  · intro hle
    simp [processMedia, hup, hp, hlast, htc, not_lt.mpr hle]
  · intro hgt
    simp [processMedia, hup, hp, hlast, htc, hgt]
  · intro s mediaId c now x hx hid
    simp only [updateMediaCount] at hx
    rcases List.mem_map.mp hx with ⟨y, hy, hfy⟩
    by_cases hyid : y.id = mediaId
    · rw [if_pos hyid] at hfy
      rw [← hfy]
    · rw [if_neg hyid] at hfy
      rw [← hfy] at hid
      exact absurd hid hyid

/-- Claim C5, amended, witness: the amended theorem at `demoMedia`
(progress 3, last-known 5) with the regressed fresh count 4. -/
theorem c5_amended_witness :
    (demoMedia.userProgress = some 3 ∧ ¬ (3 : Rat) = 0
      ∧ demoMedia.lastCheckedCount = some 5 ∧ ¬ (4 : Rat) = 0)
    ∧ (((4 : Rat) ≤ 5 → processMedia demoMedia (some 4) = ([], []))
        ∧ ((5 : Rat) < 4 → (processMedia demoMedia (some 4)).2 = [(demoMedia.id, 4)])
        ∧ (∀ (s : DBState) (mediaId : Nat) (c : Rat) (now : Nat),
            ∀ x ∈ (updateMediaCount s mediaId c now).media,
              x.id = mediaId → x.lastCheckedCount = some c)) :=
  ⟨⟨by decide, by decide, by decide, by decide⟩,
   c5_amended_update_only_on_increase demoMedia 3 5 4
     (by decide) (by decide) (by decide) (by decide)⟩

/-- Claim C6, counterexample: on first observation of `demoMediaNew` with a
fetched total of 8, the cycle stores the count silently — but it records no
release at all (the releases table stays empty), not "a single release at
the current total count". -/
theorem c6_counterexample :
    demoMediaNew.lastCheckedCount = none
    ∧ cycleBaseline.db.releases = []
    ∧ cycleBaseline.db.media.map (fun m => m.lastCheckedCount) = [some 8]
    ∧ cycleBaseline.notifications = []
    ∧ cycleBaseline.events = [] := by decide

/-- Claim C6, amended: on first observation (no stored count) of an item
passing the user-progress gate, the cycle queues the current total as the
item's initial stored state and queues no announcement — it never
back-fills historical installments — but it creates no release record:
the releases table is unchanged by every check cycle. -/
theorem c6_amended_silent_baseline_without_record (m : MediaRec)
    (p totalCount : Rat)
    (hup : m.userProgress = some p) (hp : ¬ p = 0)
    (hlast : m.lastCheckedCount = none) (htc : ¬ totalCount = 0) :
    processMedia m (some totalCount) = ([], [(m.id, totalCount)])
    ∧ (∀ (cfg : CycleConfig) (now : Nat) (s : DBState)
        (fetch : MediaRec → Option Rat) (sink : List Notification → Option Nat),
        (checkForUpdates cfg now s fetch sink).db.releases = s.releases) := by
  refine ⟨?_, fun cfg now s fetch sink => checkForUpdates_releases cfg now s fetch sink⟩
  simp [processMedia, hup, hp, hlast, htc]

/-- Claim C6, amended, witness: the amended theorem at `demoMediaNew` with
a fetched total of 8. -/
theorem c6_amended_witness :
    (demoMediaNew.userProgress = some 3 ∧ ¬ (3 : Rat) = 0
      ∧ demoMediaNew.lastCheckedCount = none ∧ ¬ (8 : Rat) = 0)
    ∧ (processMedia demoMediaNew (some 8) = ([], [(demoMediaNew.id, 8)])
        ∧ (∀ (cfg : CycleConfig) (now : Nat) (s : DBState)
            (fetch : MediaRec → Option Rat) (sink : List Notification → Option Nat),
            (checkForUpdates cfg now s fetch sink).db.releases = s.releases)) :=
  ⟨⟨by decide, by decide, by decide, by decide⟩,
   c6_amended_silent_baseline_without_record demoMediaNew 3 8
     (by decide) (by decide) (by decide) (by decide)⟩

/-- Claim C4, counterexample: the cycle that detects installments 6, 7, 8
sends them in one batch which fails (HTTP 500) — yet the un-notified query
afterwards returns nothing (there are no release records to keep
un-notified), and the next cycle re-sends nothing: the failed batch is
lost, not retried. -/
theorem c4_counterexample :
    cycleFail.events.map eventBatchNumbers = [[6, 7, 8]]
    ∧ cycleFail.events.map eventFailed = [true]
    ∧ getUnnotifiedReleases cycleFail.db = []
    ∧ cycleAfterFail.notifications = []
    ∧ cycleAfterFail.events = [] := by decide

/-- Claim C4, amended: the dispatch path never touches the ledger — a check
cycle leaves the releases table (and hence the un-notified query) unchanged
whatever the sink outcome, so no record of a failed batch is marked or kept
anywhere; and once an item's stored count equals the fetched count, the
item contributes no announcements, so announcements whose batch failed are
not re-derived on the next cycle — they are lost, not retried. -/
theorem c4_amended_failed_batch_lost (cfg : CycleConfig) (now : Nat) (s : DBState)
    (fetch : MediaRec → Option Rat) (sink : List Notification → Option Nat)
    (m : MediaRec) (totalCount : Rat) (htc : ¬ totalCount = 0) :
    (checkForUpdates cfg now s fetch sink).db.releases = s.releases
    ∧ getUnnotifiedReleases (checkForUpdates cfg now s fetch sink).db
        = getUnnotifiedReleases s
    ∧ (processMedia { m with lastCheckedCount := some totalCount }
        (some totalCount)).1 = [] := by
  refine ⟨checkForUpdates_releases cfg now s fetch sink, ?_, ?_⟩
  · unfold getUnnotifiedReleases
    rw [checkForUpdates_releases cfg now s fetch sink]
  · by_cases hup : m.userProgress = none ∨ m.userProgress = some 0
    · simp [processMedia, hup]
    · simp [processMedia, hup, htc]

/-- Claim C4, amended, witness: the amended theorem at the failing-sink
cycle on `demoState` with fetched count 8. -/
theorem c4_amended_witness :
    (¬ (8 : Rat) = 0)
    ∧ ((checkForUpdates demoCfg 1000 demoState (fun _ => some 8) failSink).db.releases
          = demoState.releases
        ∧ getUnnotifiedReleases
            (checkForUpdates demoCfg 1000 demoState (fun _ => some 8) failSink).db
          = getUnnotifiedReleases demoState
        ∧ (processMedia { demoMedia with lastCheckedCount := some 8 } (some 8)).1 = []) :=
  ⟨by decide,
   c4_amended_failed_batch_lost demoCfg 1000 demoState (fun _ => some 8) failSink
     demoMedia 8 (by decide)⟩

theorem chunkBatchesAux_flatten :
    ∀ (fuel : Nat) (l : List Notification), l.length ≤ fuel →
      (chunkBatchesAux fuel l).flatten = l := by
  intro fuel
  induction fuel with
  | zero =>
    intro l h
    have hl : l = [] := List.length_eq_zero.mp (Nat.le_zero.mp h)
    subst hl
    rfl
  | succ fuel ih =>
    intro l h
    match l with
    | [] => rfl
    | x :: xs =>
      simp only [chunkBatchesAux, List.flatten_cons]
      rw [ih _ (by simp only [List.length_drop, List.length_cons, batchSize]
                   simp only [List.length_cons] at h
                   omega)]
      exact List.take_append_drop _ _

theorem chunkBatchesAux_le :
    ∀ (fuel : Nat) (l : List Notification),
      ∀ b ∈ chunkBatchesAux fuel l, b.length ≤ batchSize := by
  intro fuel
  induction fuel with
  | zero =>
    intro l b hb
    cases l <;> simp [chunkBatchesAux] at hb
  | succ fuel ih =>
    intro l b hb
    cases l with
    | nil => simp [chunkBatchesAux] at hb
    | cons x xs =>
      simp only [chunkBatchesAux, List.mem_cons] at hb
      rcases hb with rfl | hb
      · exact List.length_take_le _ _
      · exact ih _ b hb

theorem chunkBatchesAux_length :
    ∀ (fuel : Nat) (l : List Notification), l.length ≤ fuel →
      (chunkBatchesAux fuel l).length = (l.length + (batchSize - 1)) / batchSize := by
  intro fuel
  induction fuel with
  | zero =>
    intro l h
    have hl : l = [] := List.length_eq_zero.mp (Nat.le_zero.mp h)
    subst hl
    rfl
  | succ fuel ih =>
    intro l h
    match l with
    | [] => rfl
    | x :: xs =>
      simp only [List.length_cons] at h
      simp only [chunkBatchesAux, List.length_cons]
      have hdrop : ((x :: xs).drop batchSize).length = xs.length + 1 - batchSize := by
        simp [List.length_drop]
      have hlen2 : ((x :: xs).drop batchSize).length ≤ fuel := by
        rw [hdrop]
        simp only [batchSize]
        omega
      rw [ih _ hlen2, hdrop]
      simp only [batchSize]
      by_cases hsmall : xs.length + 1 ≤ 10
      · have h1 : xs.length + 1 - 10 = 0 := by omega
        rw [h1]
        have h2 : (xs.length + 1 + 9) / 10 = 1 :=
          Nat.div_eq_of_lt_le (by omega) (by omega)
        rw [h2]
      · have h3 : xs.length + 1 - 10 + 9 = xs.length := by omega
        have h4 : xs.length + 1 + 9 = xs.length + 10 := by omega
        rw [h3, h4, Nat.add_div_right _ (by norm_num)]

theorem dispatchChunksAux_eq (sink : List Notification → Option Nat) :
    ∀ (fuel : Nat) (l : List Notification), l.length ≤ fuel →
      dispatchChunksAux sink fuel l
        = List.intersperse (DispatchEvent.sleep 1)
            ((chunkBatchesAux fuel l).map (fun b => DispatchEvent.send b (sink b))) := by
  intro fuel
  induction fuel with
  | zero =>
    intro l h
    have hl : l = [] := List.length_eq_zero.mp (Nat.le_zero.mp h)
    subst hl
    rfl
  | succ fuel ih =>
    intro l h
    match l with
    | [] => rfl
    | x :: xs =>
      simp only [List.length_cons] at h
      simp only [dispatchChunksAux, chunkBatchesAux, List.map_cons]
      rcases hrest : (x :: xs).drop batchSize with _ | ⟨y, ys⟩
      · simp [chunkBatchesAux, List.intersperse]
      · have hlrest := congrArg List.length hrest
        simp only [List.length_drop, List.length_cons, batchSize] at hlrest
        have hlen : (y :: ys).length ≤ fuel := by
          simp only [List.length_cons]
          omega
        obtain ⟨f2, rfl⟩ : ∃ f2, fuel = f2 + 1 := by
          cases fuel with
          | zero => simp at hlen
          | succ f2 => exact ⟨f2, rfl⟩
        rw [ih _ hlen]
        simp [chunkBatchesAux, List.intersperse]

theorem countSends_intersperse (sink : List Notification → Option Nat) :
    ∀ bs : List (List Notification),
      countSends (List.intersperse (DispatchEvent.sleep 1)
        (bs.map (fun b => DispatchEvent.send b (sink b)))) = bs.length := by
  intro bs
  induction bs with
  | nil => rfl
  | cons b bs ih =>
    cases bs with
    | nil => rfl
    | cons b2 t =>
      simp [countSends, List.countP_cons, List.intersperse] at ih ⊢
      omega

theorem countSleeps_intersperse (sink : List Notification → Option Nat) :
    ∀ bs : List (List Notification),
      countSleeps (List.intersperse (DispatchEvent.sleep 1)
        (bs.map (fun b => DispatchEvent.send b (sink b)))) = bs.length - 1 := by
  intro bs
  induction bs with
  | nil => rfl
  | cons b bs ih =>
    cases bs with
    | nil => rfl
    | cons b2 t =>
      simp [countSleeps, List.countP_cons, List.intersperse] at ih ⊢
      omega

theorem notifyNewReleases_eq_dispatch (webhookUrl : String) (hw : ¬ webhookUrl = "")
    (sink : List Notification → Option Nat) (releases : List Notification) :
    notifyNewReleases webhookUrl sink releases = dispatchChunks sink releases := by
  unfold notifyNewReleases
  rw [if_neg hw]
  by_cases hr : releases.isEmpty
  · rw [if_pos hr]
    have hnil : releases = [] := List.isEmpty_iff.mp hr
    subst hnil
    rfl
  · rw [if_neg hr]

/-- Claim C7: with a configured webhook, `notify_new_releases` produces
exactly the trace "send batch, pacing sleep, send batch, ..., send batch":
the announcement list is partitioned in order into consecutive batches of
at most 10 whose concatenation is the original list, one second of sleep
separates successive batch sends and none follows the final batch, and a
list of n announcements incurs `(n + 9) / 10` sends (the ceiling of n/10)
and one fewer sleeps. -/
theorem c7_batches_of_ten_with_pacing (webhookUrl : String) (hw : ¬ webhookUrl = "")
    (sink : List Notification → Option Nat) (releases : List Notification) :
    notifyNewReleases webhookUrl sink releases
      = List.intersperse (DispatchEvent.sleep 1)
          ((chunkBatches releases).map (fun b => DispatchEvent.send b (sink b)))
    ∧ (chunkBatches releases).flatten = releases
    ∧ (∀ b ∈ chunkBatches releases, b.length ≤ batchSize)
    ∧ countSends (notifyNewReleases webhookUrl sink releases)
        = (releases.length + (batchSize - 1)) / batchSize
    ∧ countSleeps (notifyNewReleases webhookUrl sink releases)
        = (releases.length + (batchSize - 1)) / batchSize - 1 := by
  have hmain : notifyNewReleases webhookUrl sink releases
      = List.intersperse (DispatchEvent.sleep 1)
          ((chunkBatches releases).map (fun b => DispatchEvent.send b (sink b))) := by
    rw [notifyNewReleases_eq_dispatch webhookUrl hw sink releases]
    exact dispatchChunksAux_eq sink releases.length releases (Nat.le_refl _)
  have hlen : (chunkBatches releases).length
      = (releases.length + (batchSize - 1)) / batchSize :=
    chunkBatchesAux_length releases.length releases (Nat.le_refl _)
  refine ⟨hmain, chunkBatchesAux_flatten _ releases (Nat.le_refl _),
          fun b hb => chunkBatchesAux_le _ releases b hb, ?_, ?_⟩
  · rw [hmain, countSends_intersperse, hlen]
  · rw [hmain, countSleeps_intersperse, hlen]

/-- Claim C7, witness: the dispatch of one announcement through a
configured webhook — one send, no sleep. -/
theorem c7_witness :
    (¬ ("https://example.invalid/webhook" : String) = "")
    ∧ (notifyNewReleases "https://example.invalid/webhook" okSink [demoNotif]
          = List.intersperse (DispatchEvent.sleep 1)
              ((chunkBatches [demoNotif]).map (fun b => DispatchEvent.send b (okSink b)))
        ∧ (chunkBatches [demoNotif]).flatten = [demoNotif]
        ∧ (∀ b ∈ chunkBatches [demoNotif], b.length ≤ batchSize)
        ∧ countSends (notifyNewReleases "https://example.invalid/webhook" okSink [demoNotif])
            = ([demoNotif].length + (batchSize - 1)) / batchSize
        ∧ countSleeps (notifyNewReleases "https://example.invalid/webhook" okSink [demoNotif])
            = ([demoNotif].length + (batchSize - 1)) / batchSize - 1) :=
  ⟨by decide,
   c7_batches_of_ten_with_pacing "https://example.invalid/webhook" (by decide)
     okSink [demoNotif]⟩
